import Mathlib

/-!
Verification of the k8s-cli controllers of dereban25/go-kubernetes-controllers.

The development shallowly embeds:
  - the FrontendPage custom resource (api/v1/frontendpage_types.go),
  - the FrontendPage reconciler (controllers/frontendpage_controller.go),
  - the deployment event processor and its work queue (cmd/informer.go),
  - the plain deployment reconciler (cmd/controller.go).

Cluster interaction is modelled as explicit state passing: a `ClusterState`
holds the objects the reconciler reads and writes, an `ApiEnv` injects the
clock value and write failures, and every API write is recorded in a log.
-/

namespace K8sCli

/-! ## Data model: FrontendPage (api/v1/frontendpage_types.go) -/

/-- FrontendPageSpec, from api/v1/frontendpage_types.go.  The Go `config`
map is modelled as an association list in a fixed order. -/
structure FrontendPageSpec where
  title : String
  description : String
  path : String
  template : String
  config : List (String × String)
  replicas : Int
  image : String
deriving DecidableEq

/-- FrontendPageStatus, from api/v1/frontendpage_types.go. -/
structure FrontendPageStatus where
  phase : String
  ready : Bool
  url : String
  deploymentName : String
  serviceName : String
  lastUpdated : String
  observedGeneration : Int
  message : String
deriving DecidableEq

/-- FrontendPage: object metadata (name, namespace, uid, generation) plus
spec and status. -/
structure FrontendPage where
  name : String
  ns : String
  uid : String
  generation : Int
  spec : FrontendPageSpec
  status : FrontendPageStatus
deriving DecidableEq

/-! ## Data model: child resources (subset of appsv1.Deployment, corev1.Service
actually read or written by the controller) -/

/-- A container environment variable. -/
structure EnvVar where
  name : String
  value : String
deriving DecidableEq

/-- The part of appsv1.DeploymentSpec the controller writes: replica count,
selector labels, pod-template labels, single container name/image/port and
environment. -/
structure DeploymentSpec where
  replicas : Int
  selectorMatchLabels : List (String × String)
  templateLabels : List (String × String)
  containerName : String
  image : String
  containerPort : Int
  env : List EnvVar
deriving DecidableEq

/-- The part of appsv1.DeploymentStatus the controller reads. -/
structure DeploymentStatus where
  replicas : Int
  readyReplicas : Int
deriving DecidableEq

/-- A Deployment object: metadata (name, namespace, controller owner
reference), spec and status. -/
structure Deployment where
  name : String
  ns : String
  ownerUID : Option String
  spec : DeploymentSpec
  status : DeploymentStatus
deriving DecidableEq

/-- A Service port entry. -/
structure ServicePort where
  name : String
  port : Int
  targetPort : Int
  protocol : String
deriving DecidableEq

/-- The part of corev1.ServiceSpec the controller writes. -/
structure ServiceSpec where
  serviceType : String
  selector : List (String × String)
  ports : List ServicePort
deriving DecidableEq

/-- A Service object: metadata plus spec. -/
structure Service where
  name : String
  ns : String
  ownerUID : Option String
  spec : ServiceSpec
deriving DecidableEq

/-! ## Cluster state, API environment and the write log -/

/-- The cluster objects a single FrontendPage reconciliation touches. -/
structure ClusterState where
  frontendPage : Option FrontendPage
  deployment : Option Deployment
  service : Option Service
deriving DecidableEq

/-- One API write issued by the reconciler, carrying the written object. -/
inductive Write where
  | createDeployment (d : Deployment)
  | updateDeployment (d : Deployment)
  | createService (s : Service)
  | updateService (s : Service)
  | statusUpdate (fp : FrontendPage)
deriving DecidableEq

/-- Whether a write targets a child resource (Deployment or Service) rather
than the FrontendPage status subresource. -/
def Write.isChildWrite : Write → Bool
  | .createDeployment _ => true
  | .updateDeployment _ => true
  | .createService _ => true
  | .updateService _ => true
  | .statusUpdate _ => false

/-- The environment of one reconcile pass: the formatted current time
(`time.Now().Format(time.RFC3339)`) and injected API-write failures. -/
structure ApiEnv where
  now : String
  deployWriteError : Option String
  svcWriteError : Option String
  statusUpdateError : Bool
deriving DecidableEq

/-- An environment in which no API write fails. -/
def ApiEnv.clean (env : ApiEnv) : Prop :=
  env.deployWriteError = none ∧ env.svcWriteError = none ∧ env.statusUpdateError = false

/-- ctrl.Result: only the RequeueAfter duration is used (in seconds;
0 means no requeue). -/
structure ReconcileResult where
  requeueAfter : Int
deriving DecidableEq

/-- The observable outcome of one Reconcile call: the resulting cluster
state, the log of successful writes, the returned ctrl.Result and error. -/
structure ReconcileOutcome where
  state : ClusterState
  writes : List Write
  result : ReconcileResult
  error : Option String
deriving DecidableEq

/-! ## Desired child objects (mutation closures of createOrUpdateDeployment /
createOrUpdateService in controllers/frontendpage_controller.go) -/

/-- The label map used both as the Deployment selector / pod-template labels
and as the Service selector. -/
def frontendLabels (fp : FrontendPage) : List (String × String) :=
  [("app", fp.name), ("frontendpage", fp.name)]

/-- The fixed FRONTEND_* environment entries. -/
def baseEnv (fp : FrontendPage) : List EnvVar :=
  [⟨"FRONTEND_TITLE", fp.spec.title⟩,
   ⟨"FRONTEND_DESCRIPTION", fp.spec.description⟩,
   ⟨"FRONTEND_PATH", fp.spec.path⟩]

/-- Environment entries appended from spec.config. -/
def configEnv (fp : FrontendPage) : List EnvVar :=
  fp.spec.config.map (fun kv => ⟨kv.1, kv.2⟩)

/-- The DeploymentSpec the mutation closure assigns: replicas defaulted to 1
when 0, image defaulted to nginx:1.20 when empty, fixed labels, container
frontend on port 80, FRONTEND_* plus config environment. -/
def desiredDeploymentSpec (fp : FrontendPage) : DeploymentSpec :=
  { replicas := if fp.spec.replicas = 0 then 1 else fp.spec.replicas
    selectorMatchLabels := frontendLabels fp
    templateLabels := frontendLabels fp
    containerName := "frontend"
    image := if fp.spec.image = "" then "nginx:1.20" else fp.spec.image
    containerPort := 80
    env := baseEnv fp ++ configEnv fp }

/-- The deployment mutation closure: SetControllerReference then assign the
desired spec; the status is left as fetched. -/
def mutateDeployment (fp : FrontendPage) (d : Deployment) : Deployment :=
  { d with ownerUID := some fp.uid, spec := desiredDeploymentSpec fp }

/-- The ServiceSpec the mutation closure assigns: ClusterIP, selector equal
to the frontend labels, port http 80 to target port 80 over TCP. -/
def desiredServiceSpec (fp : FrontendPage) : ServiceSpec :=
  { serviceType := "ClusterIP"
    selector := frontendLabels fp
    ports := [⟨"http", 80, 80, "TCP"⟩] }

/-- The service mutation closure: SetControllerReference then assign the
desired spec. -/
def mutateService (fp : FrontendPage) (s : Service) : Service :=
  { s with ownerUID := some fp.uid, spec := desiredServiceSpec fp }

/-- A zero-valued DeploymentSpec, as in a freshly allocated Go object. -/
def zeroDeploymentSpec : DeploymentSpec := ⟨0, [], [], "", "", 0, []⟩

/-- The object handed to CreateOrUpdate when no Deployment exists yet:
only ObjectMeta is set, the rest is zero. -/
def freshDeployment (fp : FrontendPage) : Deployment :=
  ⟨fp.name ++ "-deployment", fp.ns, none, zeroDeploymentSpec, ⟨0, 0⟩⟩

/-- A zero-valued ServiceSpec. -/
def zeroServiceSpec : ServiceSpec := ⟨"", [], []⟩

/-- The object handed to CreateOrUpdate when no Service exists yet. -/
def freshService (fp : FrontendPage) : Service :=
  ⟨fp.name ++ "-service", fp.ns, none, zeroServiceSpec⟩

/-! ## createOrUpdate helpers

The skeleton is controllerutil.CreateOrUpdate (a library dependency,
documented in the spec's ChildResourceManager contract): fetch the object by
its deterministic name; if absent, run the mutation closure and create; if
present, run the mutation closure and issue an update only when the mutated
object differs from the fetched one. -/

/-- createOrUpdateDeployment, controllers/frontendpage_controller.go.
Returns the new cluster state, the writes issued and the resulting
Deployment object, or the injected write error. -/
def createOrUpdateDeployment (env : ApiEnv) (fp : FrontendPage) (st : ClusterState) :
    Except String (ClusterState × List Write × Deployment) :=
  match st.deployment with
  | none =>
      let d := mutateDeployment fp (freshDeployment fp)
      match env.deployWriteError with
      | some e => .error e
      | none => .ok ({ st with deployment := some d }, [Write.createDeployment d], d)
  | some existing =>
      let d := mutateDeployment fp existing
      if d = existing then .ok (st, [], d)
      else
        match env.deployWriteError with
        | some e => .error e
        | none => .ok ({ st with deployment := some d }, [Write.updateDeployment d], d)

/-- createOrUpdateService, controllers/frontendpage_controller.go. -/
def createOrUpdateService (env : ApiEnv) (fp : FrontendPage) (st : ClusterState) :
    Except String (ClusterState × List Write × Service) :=
  match st.service with
  | none =>
      let s := mutateService fp (freshService fp)
      match env.svcWriteError with
      | some e => .error e
      | none => .ok ({ st with service := some s }, [Write.createService s], s)
  | some existing =>
      let s := mutateService fp existing
      if s = existing then .ok (st, [], s)
      else
        match env.svcWriteError with
        | some e => .error e
        | none => .ok ({ st with service := some s }, [Write.updateService s], s)

/-! ## The FrontendPage reconciler (controllers/frontendpage_controller.go) -/

/-- The field assignments of the updateStatus helper: phase, ready,
lastUpdated, message and observedGeneration. -/
def updateStatusFields (env : ApiEnv) (fp : FrontendPage)
    (phase : String) (ready : Bool) (message : String) : FrontendPage :=
  { fp with status :=
    { fp.status with
        phase := phase
        ready := ready
        lastUpdated := env.now
        message := message
        observedGeneration := fp.generation } }

/-- updateStatus: assign the status fields and issue a status write whose
error is ignored (on failure the cluster object is simply left unchanged). -/
def updateStatus (env : ApiEnv) (st : ClusterState) (fp : FrontendPage)
    (phase : String) (ready : Bool) (message : String) : ClusterState × List Write :=
  let fp2 := updateStatusFields env fp phase ready message
  if env.statusUpdateError then (st, [])
  else ({ st with frontendPage := some fp2 }, [Write.statusUpdate fp2])

/-- The final status assignment of the success path of Reconcile: readiness
from the deployment status, phase Running/Pending, URL from the service DNS
name and spec.path, child names, timestamp, observedGeneration, message. -/
def setFinalStatus (env : ApiEnv) (fp : FrontendPage) (d : Deployment) (s : Service) :
    FrontendPage :=
  let ready : Bool := d.status.readyReplicas == d.status.replicas && decide (0 < d.status.replicas)
  { fp with status :=
    { phase := if ready then "Running" else "Pending"
      ready := ready
      url := "http://" ++ s.name ++ "." ++ s.ns ++ ".svc.cluster.local" ++ fp.spec.path
      deploymentName := d.name
      serviceName := s.name
      lastUpdated := env.now
      observedGeneration := fp.generation
      message := if ready then "Deployment " ++ d.name ++ " is ready"
                 else "Deployment " ++ d.name ++ " is not ready yet" } }

/-- The tail of Reconcile after the empty-phase handling: create or update
the Deployment and the Service (on failure, record phase Failed and requeue
after 30s with the error), then write the final status and requeue after 30s
when not ready. -/
def reconcileChildren (env : ApiEnv) (st : ClusterState) (fp : FrontendPage)
    (ws : List Write) : ReconcileOutcome :=
  match createOrUpdateDeployment env fp st with
  | .error e =>
      let r := updateStatus env st fp "Failed" false e
      { state := r.1, writes := ws ++ r.2, result := ⟨30⟩, error := some e }
  | .ok (st1, ws1, d) =>
    match createOrUpdateService env fp st1 with
    | .error e =>
        let r := updateStatus env st1 fp "Failed" false e
        { state := r.1, writes := ws ++ ws1 ++ r.2, result := ⟨30⟩, error := some e }
    | .ok (st2, ws2, s) =>
        let fp2 := setFinalStatus env fp d s
        if env.statusUpdateError then
          { state := st2, writes := ws ++ ws1 ++ ws2, result := ⟨0⟩,
            error := some "status update failed" }
        else
          { state := { st2 with frontendPage := some fp2 }
            writes := ws ++ ws1 ++ ws2 ++ [Write.statusUpdate fp2]
            result := ⟨if fp2.status.ready then 0 else 30⟩
            error := none }

/-- FrontendPageReconciler.Reconcile: fetch the FrontendPage (not-found is
success with no action); on first sight of an empty phase set Pending and
persist it before any child work; then reconcile the children and the final
status. -/
def Reconcile (env : ApiEnv) (st : ClusterState) : ReconcileOutcome :=
  match st.frontendPage with
  | none => { state := st, writes := [], result := ⟨0⟩, error := none }
  | some fp =>
    if fp.status.phase = "" then
      let fp1 := { fp with status := { fp.status with phase := "Pending" } }
      if env.statusUpdateError then
        { state := st, writes := [], result := ⟨0⟩, error := some "status update failed" }
      else
        reconcileChildren env { st with frontendPage := some fp1 } fp1 [Write.statusUpdate fp1]
    else
      reconcileChildren env st fp []

/-! ## The plain deployment reconciler (cmd/controller.go) -/

/-- The part of an appsv1.Deployment that cmd/controller.go and
cmd/informer.go read: metadata, pointer replica count, first container
image (none when there are no containers), generation and status counts. -/
structure WatchedDeployment where
  ns : String
  name : String
  generation : Int
  specReplicas : Option Int
  image : Option String
  statusReplicas : Int
  statusReadyReplicas : Int
deriving DecidableEq

/-- DeploymentController.Reconcile, cmd/controller.go: not-found returns
success with no requeue; an unhealthy deployment (readyReplicas different
from the dereferenced desired replicas, defaulted to 0) requeues after 30s;
otherwise success. -/
def deploymentControllerReconcile (obj : Option WatchedDeployment) :
    ReconcileResult × Option String :=
  match obj with
  | none => (⟨0⟩, none)
  | some d =>
      let replicas := d.specReplicas.getD 0
      if d.statusReadyReplicas ≠ replicas then (⟨30⟩, none)
      else (⟨0⟩, none)

/-! ## The work queue (client-go workqueue used by cmd/informer.go)

Modelled from the spec: the implementation of the rate-limiting work queue
created by NewEventProcessor (workqueue.NewNamedRateLimitingQueue) is a
client-go library dependency absent from src/; the spec's EventQueue
contract describes it — Add enqueues or no-ops if already queued, a re-Add
of an item being processed is recorded as dirty and redelivered exactly
once after the in-flight processing completes. -/

/-- The queue state: the pending item list, the dirty set and the set of
items currently being processed. -/
structure WorkQueue where
  queue : List String
  dirty : List String
  processing : List String
deriving DecidableEq

/-- An empty work queue. -/
def WorkQueue.empty : WorkQueue := ⟨[], [], []⟩

/-- Add: no-op when the item is already dirty; otherwise mark dirty, and
append to the pending list only when the item is not being processed. -/
def WorkQueue.add (q : WorkQueue) (item : String) : WorkQueue :=
  if q.dirty.contains item then q
  else if q.processing.contains item then { q with dirty := q.dirty ++ [item] }
  else { q with dirty := q.dirty ++ [item], queue := q.queue ++ [item] }

/-- Get: pop the head of the pending list, moving it from dirty to
processing; none when the queue is empty. -/
def WorkQueue.get (q : WorkQueue) : Option (String × WorkQueue) :=
  match q.queue with
  | [] => none
  | item :: rest =>
      some (item, { queue := rest, dirty := q.dirty.erase item,
                    processing := q.processing ++ [item] })

/-- Done: drop the item from processing; if it was re-added while being
processed (still dirty) requeue it once. -/
def WorkQueue.done (q : WorkQueue) (item : String) : WorkQueue :=
  if q.dirty.contains item then
    { q with processing := q.processing.erase item, queue := q.queue ++ [item] }
  else { q with processing := q.processing.erase item }

/-- n-fold Add of the same item. -/
def WorkQueue.addN (q : WorkQueue) (item : String) : Nat → WorkQueue
  | 0 => q
  | n + 1 => (q.addN item n).add item

/-! ## The event processor (cmd/informer.go) -/

/-- The custom-logic switches of InformerConfig. -/
structure CustomLogicConfig where
  enableUpdateHandling : Bool
  enableDeleteHandling : Bool
deriving DecidableEq

/-- The EventProcessor state the handlers touch: the work queue and the
local deployment cache. -/
structure EventProcessor where
  workqueue : WorkQueue
  deploymentCache : List (String × WatchedDeployment)
  config : CustomLogicConfig
deriving DecidableEq

/-- cache.MetaNamespaceKeyFunc: the namespace/name identity key. -/
def metaNamespaceKey (d : WatchedDeployment) : String :=
  d.ns ++ "/" ++ d.name

/-- Insert or replace an entry of the local deployment cache. -/
def cacheInsert (c : List (String × WatchedDeployment)) (key : String)
    (d : WatchedDeployment) : List (String × WatchedDeployment) :=
  (key, d) :: c.filter (fun kv => kv.1 ≠ key)

/-- Remove an entry of the local deployment cache. -/
def cacheErase (c : List (String × WatchedDeployment)) (key : String) :
    List (String × WatchedDeployment) :=
  c.filter (fun kv => kv.1 ≠ key)

/-- hasSignificantChanges, cmd/informer.go: replica-count change (both
pointers non-nil), first-container image change (both container lists
non-empty), or generation change. -/
def hasSignificantChanges (old new' : WatchedDeployment) : Bool :=
  (match old.specReplicas, new'.specReplicas with
   | some o, some n => o ≠ n
   | _, _ => false) ||
  (match old.image, new'.image with
   | some o, some n => o ≠ n
   | _, _ => false) ||
  old.generation ≠ new'.generation

/-- handleAddEvent: cache the object and enqueue the identity key with the
add: operation hint. -/
def handleAddEvent (e : EventProcessor) (d : WatchedDeployment) : EventProcessor :=
  let key := metaNamespaceKey d
  { e with deploymentCache := cacheInsert e.deploymentCache key d
           workqueue := e.workqueue.add ("add:" ++ key) }

/-- handleUpdateEvent: when update handling is enabled, cache the new
object, and enqueue update:key only on significant changes. -/
def handleUpdateEvent (e : EventProcessor) (old new' : WatchedDeployment) : EventProcessor :=
  if e.config.enableUpdateHandling then
    let key := metaNamespaceKey new'
    let e1 := { e with deploymentCache := cacheInsert e.deploymentCache key new' }
    if hasSignificantChanges old new' then
      { e1 with workqueue := e1.workqueue.add ("update:" ++ key) }
    else e1
  else e

/-- handleDeleteEvent: when delete handling is enabled, drop the cache entry
and enqueue delete:key. -/
def handleDeleteEvent (e : EventProcessor) (d : WatchedDeployment) : EventProcessor :=
  if e.config.enableDeleteHandling then
    let key := metaNamespaceKey d
    { e with deploymentCache := cacheErase e.deploymentCache key
             workqueue := e.workqueue.add ("delete:" ++ key) }
  else e

/-- The characters after the first colon, when there is one. -/
def keyAfterColon : List Char → Option (List Char)
  | [] => none
  | c :: rest => if c = ':' then some rest else keyAfterColon rest

/-- The resource identity a queued work item refers to: the part after the
add:/update:/delete: operation hint (namespace/name identity keys contain
no colon). -/
def keyOfItem (i : String) : String :=
  match keyAfterColon i.data with
  | some rest => ⟨rest⟩
  | none => i

/-- The number of pending queue items referring to a given identity key. -/
def pendingForKey (q : WorkQueue) (key : String) : Nat :=
  (q.queue.filter (fun i => keyOfItem i = key)).length

/-! ## Characterization of a clean reconcile pass -/

/-- The Deployment object as it stands after a successful
createOrUpdateDeployment: the mutation applied to the existing object, or to
a fresh one when absent. -/
def observedDeployment (fp : FrontendPage) (st : ClusterState) : Deployment :=
  mutateDeployment fp (st.deployment.getD (freshDeployment fp))

/-- The Service object after a successful createOrUpdateService. -/
def observedService (fp : FrontendPage) (st : ClusterState) : Service :=
  mutateService fp (st.service.getD (freshService fp))

/-- The FrontendPage after the final status write of a clean pass. -/
def finalFP (env : ApiEnv) (fp : FrontendPage) (st : ClusterState) : FrontendPage :=
  setFinalStatus env fp (observedDeployment fp st) (observedService fp st)

theorem mutateDeployment_status_congr (fp : FrontendPage) (s : FrontendPageStatus)
    (d : Deployment) :
    mutateDeployment { fp with status := s } d = mutateDeployment fp d := rfl

theorem mutateService_status_congr (fp : FrontendPage) (s : FrontendPageStatus)
    (sv : Service) :
    mutateService { fp with status := s } sv = mutateService fp sv := rfl

theorem setFinalStatus_status_congr (env : ApiEnv) (fp : FrontendPage)
    (s : FrontendPageStatus) (d : Deployment) (sv : Service) :
    setFinalStatus env { fp with status := s } d sv = setFinalStatus env fp d sv := rfl

theorem mutateDeployment_idem (fp : FrontendPage) (d : Deployment) :
    mutateDeployment fp (mutateDeployment fp d) = mutateDeployment fp d := rfl

theorem mutateService_idem (fp : FrontendPage) (s : Service) :
    mutateService fp (mutateService fp s) = mutateService fp s := rfl

theorem createOrUpdateDeployment_clean (env : ApiEnv) (fp : FrontendPage)
    (st : ClusterState) (h : env.deployWriteError = none) :
    ∃ ws, createOrUpdateDeployment env fp st =
        .ok ({ st with deployment := some (observedDeployment fp st) }, ws,
             observedDeployment fp st) ∧
      (∀ w ∈ ws, w.isChildWrite = true) ∧
      (st.deployment = some (observedDeployment fp st) → ws = []) := by
  unfold createOrUpdateDeployment observedDeployment
  cases hd : st.deployment with
  | none =>
      refine ⟨[Write.createDeployment (mutateDeployment fp (freshDeployment fp))], ?_, ?_, ?_⟩
      · simp [h]
      · simp [Write.isChildWrite]
      · simp [hd]
  | some existing =>
      by_cases hfix : mutateDeployment fp existing = existing
      · refine ⟨[], ?_, by simp, fun _ => rfl⟩
        have hst : { st with deployment := some existing } = st := by
          cases st; simp_all
        simp [hfix, Option.getD, hst]
      · refine ⟨[Write.updateDeployment (mutateDeployment fp existing)], ?_, ?_, ?_⟩
        · simp [hfix, h, Option.getD]
        · simp [Write.isChildWrite]
        · intro hc
          simp only [Option.getD, Option.some.injEq] at hc
          exact absurd hc.symm hfix

theorem createOrUpdateService_clean (env : ApiEnv) (fp : FrontendPage)
    (st : ClusterState) (h : env.svcWriteError = none) :
    ∃ ws, createOrUpdateService env fp st =
        .ok ({ st with service := some (observedService fp st) }, ws,
             observedService fp st) ∧
      (∀ w ∈ ws, w.isChildWrite = true) ∧
      (st.service = some (observedService fp st) → ws = []) := by
  unfold createOrUpdateService observedService
  cases hs : st.service with
  | none =>
      refine ⟨[Write.createService (mutateService fp (freshService fp))], ?_, ?_, ?_⟩
      · simp [h]
      · simp [Write.isChildWrite]
      · simp [hs]
  | some existing =>
      by_cases hfix : mutateService fp existing = existing
      · refine ⟨[], ?_, by simp, fun _ => rfl⟩
        have hst : { st with service := some existing } = st := by
          cases st; simp_all
        simp [hfix, Option.getD, hst]
      · refine ⟨[Write.updateService (mutateService fp existing)], ?_, ?_, ?_⟩
        · simp [hfix, h, Option.getD]
        · simp [Write.isChildWrite]
        · intro hc
          simp only [Option.getD, Option.some.injEq] at hc
          exact absurd hc.symm hfix

theorem reconcileChildren_clean (env : ApiEnv) (st : ClusterState) (fp : FrontendPage)
    (ws0 : List Write) (hd : env.deployWriteError = none)
    (hs : env.svcWriteError = none) (hu : env.statusUpdateError = false) :
    ∃ cw, reconcileChildren env st fp ws0 =
        { state := { frontendPage := some (finalFP env fp st)
                     deployment := some (observedDeployment fp st)
                     service := some (observedService fp st) }
          writes := ws0 ++ cw ++ [Write.statusUpdate (finalFP env fp st)]
          result := ⟨if (finalFP env fp st).status.ready then 0 else 30⟩
          error := none } ∧
      (∀ w ∈ cw, w.isChildWrite = true) ∧
      (st.deployment = some (observedDeployment fp st) →
        st.service = some (observedService fp st) → cw = []) := by
  obtain ⟨wsD, hD, hDc, hDfix⟩ := createOrUpdateDeployment_clean env fp st hd
  obtain ⟨wsS, hS, hSc, hSfix⟩ :=
    createOrUpdateService_clean env fp { st with deployment := some (observedDeployment fp st) } hs
  have hobs : observedService fp { st with deployment := some (observedDeployment fp st) }
      = observedService fp st := rfl
  refine ⟨wsD ++ wsS, ?_, ?_, ?_⟩
  · unfold reconcileChildren
    rw [hD]
    dsimp only
    rw [hS]
    dsimp only
    simp only [hu, hobs, Bool.false_eq_true, if_false, finalFP]
    simp [List.append_assoc]
  · intro w hw
    rcases List.mem_append.mp hw with h1 | h2
    · exact hDc w h1
    · exact hSc w h2
  · intro hfixD hfixS
    have h1 : wsD = [] := hDfix hfixD
    have h2 : wsS = [] := by
      apply hSfix
      show st.service = _
      rw [hobs]
      exact hfixS
    rw [h1, h2]
    rfl

theorem Reconcile_clean (env : ApiEnv) (st : ClusterState) (fp : FrontendPage)
    (hd : env.deployWriteError = none) (hs : env.svcWriteError = none)
    (hu : env.statusUpdateError = false) (hfp : st.frontendPage = some fp) :
    ∃ pre cw,
      Reconcile env st =
        { state := { frontendPage := some (finalFP env fp st)
                     deployment := some (observedDeployment fp st)
                     service := some (observedService fp st) }
          writes := pre ++ cw ++ [Write.statusUpdate (finalFP env fp st)]
          result := ⟨if (finalFP env fp st).status.ready then 0 else 30⟩
          error := none } ∧
      (∀ w ∈ cw, w.isChildWrite = true) ∧
      (fp.status.phase = "" →
        ∃ fpP, pre = [Write.statusUpdate fpP] ∧ fpP.status.phase = "Pending" ∧
          fpP.status.observedGeneration = fp.status.observedGeneration ∧
          fpP.generation = fp.generation) ∧
      (fp.status.phase ≠ "" → pre = []) ∧
      (st.deployment = some (observedDeployment fp st) →
        st.service = some (observedService fp st) → cw = []) := by
  unfold Reconcile
  rw [hfp]
  by_cases hph : fp.status.phase = ""
  · set fp1 : FrontendPage := { fp with status := { fp.status with phase := "Pending" } } with hfp1
    have hcongrD : observedDeployment fp1 { st with frontendPage := some fp1 }
        = observedDeployment fp st := rfl
    have hcongrS : observedService fp1 { st with frontendPage := some fp1 }
        = observedService fp st := rfl
    have hcongrF : finalFP env fp1 { st with frontendPage := some fp1 }
        = finalFP env fp st := rfl
    obtain ⟨cw, hrc, hcw, hcfix⟩ :=
      reconcileChildren_clean env { st with frontendPage := some fp1 } fp1
        [Write.statusUpdate fp1] hd hs hu
    refine ⟨[Write.statusUpdate fp1], cw, ?_, hcw, ?_, ?_, ?_⟩
    · simp only [hph, if_true, hu, Bool.false_eq_true, if_false]
      rw [hrc, hcongrD, hcongrS, hcongrF]
    · intro _
      exact ⟨fp1, rfl, rfl, rfl, rfl⟩
    · intro hne; exact absurd hph hne
    · intro h1 h2
      apply hcfix
      · show st.deployment = _
        rw [hcongrD]
        exact h1
      · show st.service = _
        rw [hcongrS]
        exact h2
  · obtain ⟨cw, hrc, hcw, hcfix⟩ := reconcileChildren_clean env st fp [] hd hs hu
    refine ⟨[], cw, ?_, hcw, ?_, fun _ => rfl, hcfix⟩
    · simp only [hph, if_false]
      rw [hrc]
    · intro h; exact absurd h hph

/-- The writes of reconcileChildren extend the writes accumulated so far. -/
theorem reconcileChildren_writes_prefix (env : ApiEnv) (st : ClusterState)
    (fp : FrontendPage) (ws0 : List Write) :
    ∃ tl, (reconcileChildren env st fp ws0).writes = ws0 ++ tl := by
  unfold reconcileChildren
  cases hD : createOrUpdateDeployment env fp st with
  | error e => exact ⟨_, rfl⟩
  | ok t =>
      obtain ⟨st1, ws1, d⟩ := t
      dsimp only
      cases hS : createOrUpdateService env fp st1 with
      | error e =>
          refine ⟨ws1 ++ (updateStatus env st1 fp "Failed" false e).2, ?_⟩
          dsimp only
          rw [List.append_assoc]
      | ok t2 =>
          obtain ⟨st2, ws2, s⟩ := t2
          dsimp only
          by_cases hu : env.statusUpdateError = true
          · refine ⟨ws1 ++ ws2, ?_⟩
            simp only [hu, if_true]
            rw [List.append_assoc]
          · refine ⟨ws1 ++ (ws2 ++ [Write.statusUpdate (setFinalStatus env fp d s)]), ?_⟩
            simp only [hu, if_false]
            simp [List.append_assoc]

/-! ## Demo objects for witnesses and counterexamples -/

/-- A demo FrontendPage spec. -/
def demoSpec : FrontendPageSpec :=
  { title := "Demo", description := "demo page", path := "/demo", template := "",
    config := [], replicas := 2, image := "nginx:1.21" }

/-- A zero-valued status, as on a freshly created resource. -/
def emptyStatus : FrontendPageStatus :=
  { phase := "", ready := false, url := "", deploymentName := "", serviceName := "",
    lastUpdated := "", observedGeneration := 0, message := "" }

/-- A freshly created demo FrontendPage at generation 5. -/
def fpDemo : FrontendPage :=
  { name := "demo", ns := "default", uid := "uid-1", generation := 5,
    spec := demoSpec, status := emptyStatus }

/-- A demo environment in which no write fails. -/
def envDemo : ApiEnv := ⟨"2024-01-01T00:00:00Z", none, none, false⟩

/-- A demo cluster holding only the fresh FrontendPage. -/
def stDemo : ClusterState := ⟨some fpDemo, none, none⟩

/-- The demo FrontendPage after its phase was set to Pending. -/
def fpPendingDemo : FrontendPage :=
  { fpDemo with status := { emptyStatus with phase := "Pending" } }

/-- A demo Deployment whose two replicas are all ready. -/
def dReady : Deployment :=
  ⟨"demo-deployment", "default", some "uid-1", desiredDeploymentSpec fpDemo, ⟨2, 2⟩⟩

/-- A demo cluster in which the Deployment is fully ready. -/
def stReady : ClusterState := ⟨some fpPendingDemo, some dReady, none⟩

/-! ## Claim theorems -/

/-- C1: when the child Deployment and Service writes succeed, reconciliation
computes ready from the deployment status
(readyReplicas == replicas && replicas > 0), sets status.url to the
service's in-cluster DNS name joined with spec.path, sets phase Running
with no requeue when ready and phase Pending with a 30-second requeue
otherwise; in particular a Deployment with
readyReplicas == replicas == desiredReplicas > 0 yields phase Running and
ready true. -/
theorem reconcile_status_correct (env : ApiEnv) (st : ClusterState) (fp : FrontendPage)
    (hd : env.deployWriteError = none) (hs : env.svcWriteError = none)
    (hu : env.statusUpdateError = false) (hfp : st.frontendPage = some fp) :
    ∃ fp2 d s,
      (Reconcile env st).state.frontendPage = some fp2 ∧
      (Reconcile env st).state.deployment = some d ∧
      (Reconcile env st).state.service = some s ∧
      (Reconcile env st).error = none ∧
      fp2.status.ready = (d.status.readyReplicas == d.status.replicas
          && decide (0 < d.status.replicas)) ∧
      fp2.status.url = "http://" ++ s.name ++ "." ++ s.ns ++ ".svc.cluster.local"
          ++ fp.spec.path ∧
      (fp2.status.ready = true → fp2.status.phase = "Running" ∧
          (Reconcile env st).result.requeueAfter = 0) ∧
      (fp2.status.ready = false → fp2.status.phase = "Pending" ∧
          (Reconcile env st).result.requeueAfter = 30) ∧
      (∀ d0, st.deployment = some d0 → d0.status.readyReplicas = d0.status.replicas →
          d0.status.replicas = fp.spec.replicas → 0 < d0.status.replicas →
          fp2.status.phase = "Running" ∧ fp2.status.ready = true) := by
  obtain ⟨pre, cw, heq, -, -, -, -⟩ := Reconcile_clean env st fp hd hs hu hfp
  rw [heq]
  have hphase : (finalFP env fp st).status.phase
      = (if (finalFP env fp st).status.ready then "Running" else "Pending") := rfl
  refine ⟨finalFP env fp st, observedDeployment fp st, observedService fp st,
    rfl, rfl, rfl, rfl, rfl, rfl, ?_, ?_, ?_⟩
  · intro hr
    refine ⟨?_, ?_⟩
    · rw [hphase, hr]
      rfl
    · show (if (finalFP env fp st).status.ready then (0 : Int) else 30) = 0
      rw [hr]
      rfl
  · intro hr
    refine ⟨?_, ?_⟩
    · rw [hphase, hr]
      rfl
    · show (if (finalFP env fp st).status.ready then (0 : Int) else 30) = 30
      rw [hr]
      rfl
  · intro d0 hd0 h1 _ h3
    have hobs : observedDeployment fp st = mutateDeployment fp d0 := by
      unfold observedDeployment
      rw [hd0]
      rfl
    have hstat : (observedDeployment fp st).status = d0.status := by
      rw [hobs]
      rfl
    have hr : (finalFP env fp st).status.ready = true := by
      have hx : (finalFP env fp st).status.ready
          = ((observedDeployment fp st).status.readyReplicas ==
              (observedDeployment fp st).status.replicas
              && decide (0 < (observedDeployment fp st).status.replicas)) := rfl
      rw [hx, hstat, h1]
      simp [h3]
    refine ⟨?_, hr⟩
    rw [hphase, hr]
    rfl

/-- Witness for C1 at a concrete ready cluster. -/
theorem reconcile_status_correct_witness :
    ∃ fp2 d s,
      (Reconcile envDemo stReady).state.frontendPage = some fp2 ∧
      (Reconcile envDemo stReady).state.deployment = some d ∧
      (Reconcile envDemo stReady).state.service = some s ∧
      (Reconcile envDemo stReady).error = none ∧
      fp2.status.ready = (d.status.readyReplicas == d.status.replicas
          && decide (0 < d.status.replicas)) ∧
      fp2.status.url = "http://" ++ s.name ++ "." ++ s.ns ++ ".svc.cluster.local"
          ++ fpPendingDemo.spec.path ∧
      (fp2.status.ready = true → fp2.status.phase = "Running" ∧
          (Reconcile envDemo stReady).result.requeueAfter = 0) ∧
      (fp2.status.ready = false → fp2.status.phase = "Pending" ∧
          (Reconcile envDemo stReady).result.requeueAfter = 30) ∧
      (∀ d0, stReady.deployment = some d0 → d0.status.readyReplicas = d0.status.replicas →
          d0.status.replicas = fpPendingDemo.spec.replicas → 0 < d0.status.replicas →
          fp2.status.phase = "Running" ∧ fp2.status.ready = true) :=
  reconcile_status_correct envDemo stReady fpPendingDemo rfl rfl rfl rfl

/-- C5: a key whose object is not found on fetch yields success with no
requeue, no writes and an unchanged state, both for the FrontendPage
reconciler and for the plain deployment reconciler; not-found is never
surfaced as an error. -/
theorem reconcile_not_found_success (env : ApiEnv) (st : ClusterState)
    (h : st.frontendPage = none) :
    Reconcile env st = { state := st, writes := [], result := ⟨0⟩, error := none } ∧
    deploymentControllerReconcile none = (⟨0⟩, none) := by
  refine ⟨?_, rfl⟩
  unfold Reconcile
  rw [h]

/-- Witness for C5 at an empty cluster. -/
theorem reconcile_not_found_success_witness :
    Reconcile envDemo ⟨none, none, none⟩ =
      { state := ⟨none, none, none⟩, writes := [], result := ⟨0⟩, error := none } ∧
    deploymentControllerReconcile none = (⟨0⟩, none) :=
  reconcile_not_found_success envDemo ⟨none, none, none⟩ rfl

/-- C7: on first sight of a FrontendPage with empty phase, the reconciler's
first persisted write is the Pending status write, before any child
resource write; and when that status write fails, the pass performs no
writes at all, changes nothing and returns the error. -/
theorem pending_persisted_before_children (env : ApiEnv) (st : ClusterState)
    (fp : FrontendPage) (hfp : st.frontendPage = some fp)
    (hempty : fp.status.phase = "") :
    (env.statusUpdateError = false →
      ∃ fp1, (Reconcile env st).writes.head? = some (Write.statusUpdate fp1) ∧
        fp1.status.phase = "Pending") ∧
    (env.statusUpdateError = true →
      (Reconcile env st).writes = [] ∧
      (Reconcile env st).error = some "status update failed" ∧
      (Reconcile env st).state = st) := by
  constructor
  · intro hu
    unfold Reconcile
    rw [hfp]
    simp only [hempty, if_true, hu, Bool.false_eq_true, if_false]
    obtain ⟨tl, htl⟩ := reconcileChildren_writes_prefix env
      { st with frontendPage := some { fp with status := { fp.status with phase := "Pending" } } }
      { fp with status := { fp.status with phase := "Pending" } }
      [Write.statusUpdate { fp with status := { fp.status with phase := "Pending" } }]
    refine ⟨{ fp with status := { fp.status with phase := "Pending" } }, ?_, rfl⟩
    rw [htl]
    rfl
  · intro hu
    unfold Reconcile
    rw [hfp]
    simp [hempty, hu]

/-- Witness for C7 at the fresh demo FrontendPage. -/
theorem pending_persisted_before_children_witness :
    ((envDemo.statusUpdateError = false →
      ∃ fp1, (Reconcile envDemo stDemo).writes.head? = some (Write.statusUpdate fp1) ∧
        fp1.status.phase = "Pending") ∧
    (envDemo.statusUpdateError = true →
      (Reconcile envDemo stDemo).writes = [] ∧
      (Reconcile envDemo stDemo).error = some "status update failed" ∧
      (Reconcile envDemo stDemo).state = stDemo)) :=
  pending_persisted_before_children envDemo stDemo fpDemo rfl rfl

/-- C10: after a clean reconcile of a FrontendPage named N, the Service
selector equals the Deployment's pod-template labels, both being exactly
the map app: N, frontendpage: N. -/
theorem service_selector_matches_deployment (env : ApiEnv) (st : ClusterState)
    (fp : FrontendPage) (hd : env.deployWriteError = none)
    (hs : env.svcWriteError = none) (hu : env.statusUpdateError = false)
    (hfp : st.frontendPage = some fp) :
    ∃ d s, (Reconcile env st).state.deployment = some d ∧
      (Reconcile env st).state.service = some s ∧
      s.spec.selector = d.spec.templateLabels ∧
      d.spec.selectorMatchLabels = d.spec.templateLabels ∧
      d.spec.templateLabels = [("app", fp.name), ("frontendpage", fp.name)] := by
  obtain ⟨pre, cw, heq, -, -, -, -⟩ := Reconcile_clean env st fp hd hs hu hfp
  rw [heq]
  exact ⟨observedDeployment fp st, observedService fp st, rfl, rfl, rfl, rfl, rfl⟩

/-- Witness for C10 at the fresh demo FrontendPage. -/
theorem service_selector_matches_deployment_witness :
    ∃ d s, (Reconcile envDemo stDemo).state.deployment = some d ∧
      (Reconcile envDemo stDemo).state.service = some s ∧
      s.spec.selector = d.spec.templateLabels ∧
      d.spec.selectorMatchLabels = d.spec.templateLabels ∧
      d.spec.templateLabels = [("app", fpDemo.name), ("frontendpage", fpDemo.name)] :=
  service_selector_matches_deployment envDemo stDemo fpDemo rfl rfl rfl rfl

/-- C2 counterexample: reconciling the demo FrontendPage and immediately
reconciling again with no external change still produces a write (the
unconditional status update of the success path), refuting that the second
call performs no additional writes. -/
theorem reconcile_second_pass_still_writes :
    (Reconcile envDemo (Reconcile envDemo stDemo).state).writes ≠ [] := by
  decide

/-- C2 (amended): an immediate second Reconcile with no external change
does not error, leaves the cluster state exactly as the first call left it,
and performs no additional Deployment or Service writes; when a
FrontendPage exists its writes are exactly one status update. -/
theorem reconcile_idempotent_children (env : ApiEnv) (st : ClusterState)
    (hd : env.deployWriteError = none) (hs : env.svcWriteError = none)
    (hu : env.statusUpdateError = false) :
    (Reconcile env (Reconcile env st).state).error = none ∧
    (Reconcile env (Reconcile env st).state).state = (Reconcile env st).state ∧
    (Reconcile env (Reconcile env st).state).writes.filter Write.isChildWrite = [] ∧
    (∀ fp0, st.frontendPage = some fp0 →
      ∃ fpw, (Reconcile env (Reconcile env st).state).writes = [Write.statusUpdate fpw]) := by
  cases hfp : st.frontendPage with
  | none =>
      have h1 : Reconcile env st = { state := st, writes := [], result := ⟨0⟩, error := none } := by
        unfold Reconcile
        rw [hfp]
      have h2 : (Reconcile env st).state = st := by rw [h1]
      rw [h2, h1]
      refine ⟨rfl, rfl, rfl, ?_⟩
      intro fp0 hfp0
      exact absurd hfp0 (by simp)
  | some fp =>
      obtain ⟨pre, cw, heq, -, -, -, -⟩ := Reconcile_clean env st fp hd hs hu hfp
      have hst1 : (Reconcile env st).state
          = ⟨some (finalFP env fp st), some (observedDeployment fp st),
             some (observedService fp st)⟩ := by rw [heq]
      obtain ⟨pre2, cw2, heq2, -, -, hnonpend2, hfix2⟩ :=
        Reconcile_clean env ⟨some (finalFP env fp st), some (observedDeployment fp st),
          some (observedService fp st)⟩ (finalFP env fp st) hd hs hu rfl
      have hFphase : (finalFP env fp st).status.phase ≠ "" := by
        have hx : (finalFP env fp st).status.phase
            = (if (finalFP env fp st).status.ready then "Running" else "Pending") := rfl
        rw [hx]
        cases hb : (finalFP env fp st).status.ready <;> simp
      have hpre2 : pre2 = [] := hnonpend2 hFphase
      have hD2 : observedDeployment (finalFP env fp st)
          ⟨some (finalFP env fp st), some (observedDeployment fp st),
           some (observedService fp st)⟩ = observedDeployment fp st := rfl
      have hS2 : observedService (finalFP env fp st)
          ⟨some (finalFP env fp st), some (observedDeployment fp st),
           some (observedService fp st)⟩ = observedService fp st := rfl
      have hF2 : finalFP env (finalFP env fp st)
          ⟨some (finalFP env fp st), some (observedDeployment fp st),
           some (observedService fp st)⟩ = finalFP env fp st := rfl
      have hcw2 : cw2 = [] := by
        apply hfix2
        · rw [hD2]
        · rw [hS2]
      rw [hst1, heq2, hpre2, hcw2]
      refine ⟨rfl, ?_, ?_, ?_⟩
      · dsimp only
        rw [hD2, hS2, hF2]
      · rw [hF2]
        rfl
      · intro fp0 _
        exact ⟨finalFP env fp st, rfl⟩

/-- Witness for the amended C2 at the demo input. -/
theorem reconcile_idempotent_children_witness :
    (Reconcile envDemo (Reconcile envDemo stDemo).state).error = none ∧
    (Reconcile envDemo (Reconcile envDemo stDemo).state).state
      = (Reconcile envDemo stDemo).state ∧
    (Reconcile envDemo (Reconcile envDemo stDemo).state).writes.filter
      Write.isChildWrite = [] ∧
    (∀ fp0, stDemo.frontendPage = some fp0 →
      ∃ fpw, (Reconcile envDemo (Reconcile envDemo stDemo).state).writes
        = [Write.statusUpdate fpw]) :=
  reconcile_idempotent_children envDemo stDemo rfl rfl rfl

/-! ## C4: owner references on every child write -/

/-- Whether a write carries the controller owner reference for the given
owner UID (trivially true for status writes, which have no owner field). -/
def Write.ownerOk (uid : String) : Write → Bool
  | .createDeployment d => d.ownerUID == some uid
  | .updateDeployment d => d.ownerUID == some uid
  | .createService s => s.ownerUID == some uid
  | .updateService s => s.ownerUID == some uid
  | .statusUpdate _ => true

theorem createOrUpdateDeployment_ok_owner (env : ApiEnv) (fp : FrontendPage)
    (st st' : ClusterState) (ws : List Write) (d : Deployment)
    (h : createOrUpdateDeployment env fp st = .ok (st', ws, d)) :
    ∀ w ∈ ws, Write.ownerOk fp.uid w = true := by
  unfold createOrUpdateDeployment at h
  cases hd : st.deployment with
  | none =>
      rw [hd] at h
      dsimp only at h
      cases he : env.deployWriteError with
      | some e =>
          rw [he] at h
          exact absurd h (by simp)
      | none =>
          rw [he] at h
          simp only [Except.ok.injEq, Prod.mk.injEq] at h
          obtain ⟨-, hws, -⟩ := h
          subst hws
          intro w hw
          rw [List.mem_singleton] at hw
          subst hw
          simp [Write.ownerOk, mutateDeployment]
  | some existing =>
      rw [hd] at h
      dsimp only at h
      by_cases hfix : mutateDeployment fp existing = existing
      · rw [if_pos hfix] at h
        simp only [Except.ok.injEq, Prod.mk.injEq] at h
        obtain ⟨-, hws, -⟩ := h
        subst hws
        intro w hw
        exact absurd hw (by simp)
      · rw [if_neg hfix] at h
        cases he : env.deployWriteError with
        | some e =>
            rw [he] at h
            exact absurd h (by simp)
        | none =>
            rw [he] at h
            simp only [Except.ok.injEq, Prod.mk.injEq] at h
            obtain ⟨-, hws, -⟩ := h
            subst hws
            intro w hw
            rw [List.mem_singleton] at hw
            subst hw
            simp [Write.ownerOk, mutateDeployment]

theorem createOrUpdateService_ok_owner (env : ApiEnv) (fp : FrontendPage)
    (st st' : ClusterState) (ws : List Write) (sv : Service)
    (h : createOrUpdateService env fp st = .ok (st', ws, sv)) :
    ∀ w ∈ ws, Write.ownerOk fp.uid w = true := by
  unfold createOrUpdateService at h
  cases hs : st.service with
  | none =>
      rw [hs] at h
      dsimp only at h
      cases he : env.svcWriteError with
      | some e =>
          rw [he] at h
          exact absurd h (by simp)
      | none =>
          rw [he] at h
          simp only [Except.ok.injEq, Prod.mk.injEq] at h
          obtain ⟨-, hws, -⟩ := h
          subst hws
          intro w hw
          rw [List.mem_singleton] at hw
          subst hw
          simp [Write.ownerOk, mutateService]
  | some existing =>
      rw [hs] at h
      dsimp only at h
      by_cases hfix : mutateService fp existing = existing
      · rw [if_pos hfix] at h
        simp only [Except.ok.injEq, Prod.mk.injEq] at h
        obtain ⟨-, hws, -⟩ := h
        subst hws
        intro w hw
        exact absurd hw (by simp)
      · rw [if_neg hfix] at h
        cases he : env.svcWriteError with
        | some e =>
            rw [he] at h
            exact absurd h (by simp)
        | none =>
            rw [he] at h
            simp only [Except.ok.injEq, Prod.mk.injEq] at h
            obtain ⟨-, hws, -⟩ := h
            subst hws
            intro w hw
            rw [List.mem_singleton] at hw
            subst hw
            simp [Write.ownerOk, mutateService]

theorem updateStatus_writes_owner (env : ApiEnv) (st : ClusterState)
    (fp : FrontendPage) (ph : String) (rd : Bool) (msg : String) (uid : String) :
    ∀ w ∈ (updateStatus env st fp ph rd msg).2, Write.ownerOk uid w = true := by
  unfold updateStatus
  by_cases hu : env.statusUpdateError = true
  · simp [hu]
  · simp only [hu, Bool.false_eq_true, if_false]
    intro w hw
    rw [List.mem_singleton] at hw
    subst hw
    rfl

theorem reconcileChildren_owner (env : ApiEnv) (st : ClusterState)
    (fp : FrontendPage) (ws0 : List Write)
    (h0 : ∀ w ∈ ws0, Write.ownerOk fp.uid w = true) :
    ∀ w ∈ (reconcileChildren env st fp ws0).writes, Write.ownerOk fp.uid w = true := by
  unfold reconcileChildren
  cases hD : createOrUpdateDeployment env fp st with
  | error e =>
      dsimp only
      intro w hw
      rcases List.mem_append.mp hw with h | h
      · exact h0 w h
      · exact updateStatus_writes_owner env st fp "Failed" false e fp.uid w h
  | ok t =>
      obtain ⟨st1, ws1, d⟩ := t
      have hws1 := createOrUpdateDeployment_ok_owner env fp st st1 ws1 d hD
      dsimp only
      cases hS : createOrUpdateService env fp st1 with
      | error e =>
          intro w hw
          rcases List.mem_append.mp hw with h | h
          · rcases List.mem_append.mp h with h1 | h1
            · exact h0 w h1
            · exact hws1 w h1
          · exact updateStatus_writes_owner env st1 fp "Failed" false e fp.uid w h
      | ok t2 =>
          obtain ⟨st2, ws2, sv⟩ := t2
          have hws2 := createOrUpdateService_ok_owner env fp st1 st2 ws2 sv hS
          dsimp only
          by_cases hu : env.statusUpdateError = true
          · simp only [hu, if_true]
            intro w hw
            rcases List.mem_append.mp hw with h | h
            · rcases List.mem_append.mp h with h1 | h1
              · exact h0 w h1
              · exact hws1 w h1
            · exact hws2 w h
          · simp only [hu, if_false]
            intro w hw
            rcases List.mem_append.mp hw with h | h
            · rcases List.mem_append.mp h with h1 | h1
              · rcases List.mem_append.mp h1 with h2 | h2
                · exact h0 w h2
                · exact hws1 w h2
              · exact hws2 w h1
            · rw [List.mem_singleton] at h
              subst h
              rfl

/-- C4: every Deployment or Service write performed while reconciling a
FrontendPage, on creation and on every subsequent update, carries the
controller owner reference pointing at that FrontendPage's UID. -/
theorem children_carry_owner_reference (env : ApiEnv) (st : ClusterState)
    (fp : FrontendPage) (hfp : st.frontendPage = some fp) :
    ∀ w ∈ (Reconcile env st).writes, Write.ownerOk fp.uid w = true := by
  unfold Reconcile
  rw [hfp]
  by_cases hph : fp.status.phase = ""
  · simp only [hph, if_true]
    by_cases hu : env.statusUpdateError = true
    · simp only [hu, if_true]
      intro w hw
      exact absurd hw (by simp)
    · simp only [hu, Bool.false_eq_true, if_false]
      apply reconcileChildren_owner
      intro w hw
      rw [List.mem_singleton] at hw
      subst hw
      rfl
  · simp only [hph, if_false]
    apply reconcileChildren_owner
    intro w hw
    exact absurd hw (by simp)

/-- Witness for C4: at the demo input, every logged write carries the demo
FrontendPage's UID. -/
theorem children_carry_owner_reference_witness :
    (Reconcile envDemo stDemo).writes.all (Write.ownerOk fpDemo.uid) = true := by
  rw [List.all_eq_true]
  intro w hw
  exact children_carry_owner_reference envDemo stDemo fpDemo rfl w hw

/-! ## C6: failure of a child write -/

theorem createOrUpdateDeployment_fails (env : ApiEnv) (fp : FrontendPage)
    (st : ClusterState) (e : String) (he : env.deployWriteError = some e)
    (hneed : match st.deployment with
             | none => True
             | some d0 => mutateDeployment fp d0 ≠ d0) :
    createOrUpdateDeployment env fp st = .error e := by
  unfold createOrUpdateDeployment
  cases hd : st.deployment with
  | none => simp [he]
  | some d0 =>
      rw [hd] at hneed
      dsimp only at hneed
      simp [if_neg hneed, he]

theorem createOrUpdateService_fails (env : ApiEnv) (fp : FrontendPage)
    (st : ClusterState) (e : String) (he : env.svcWriteError = some e)
    (hneed : match st.service with
             | none => True
             | some s0 => mutateService fp s0 ≠ s0) :
    createOrUpdateService env fp st = .error e := by
  unfold createOrUpdateService
  cases hs : st.service with
  | none => simp [he]
  | some s0 =>
      rw [hs] at hneed
      dsimp only at hneed
      simp [if_neg hneed, he]

theorem reconcileChildren_deploy_fail (env : ApiEnv) (st : ClusterState)
    (fp : FrontendPage) (ws0 : List Write) (e : String)
    (hfail : createOrUpdateDeployment env fp st = .error e)
    (hu : env.statusUpdateError = false) :
    reconcileChildren env st fp ws0 =
      { state := { st with frontendPage := some (updateStatusFields env fp "Failed" false e) }
        writes := ws0 ++ [Write.statusUpdate (updateStatusFields env fp "Failed" false e)]
        result := ⟨30⟩
        error := some e } := by
  unfold reconcileChildren
  rw [hfail]
  dsimp only
  unfold updateStatus
  simp [hu]

theorem reconcileChildren_svc_fail (env : ApiEnv) (st : ClusterState)
    (fp : FrontendPage) (ws0 : List Write) (e : String)
    (hd : env.deployWriteError = none) (hu : env.statusUpdateError = false)
    (hsfail : createOrUpdateService env fp
      { st with deployment := some (observedDeployment fp st) } = .error e) :
    ∃ ws1, reconcileChildren env st fp ws0 =
      { state := { frontendPage := some (updateStatusFields env fp "Failed" false e)
                   deployment := some (observedDeployment fp st)
                   service := st.service }
        writes := ws0 ++ ws1 ++ [Write.statusUpdate (updateStatusFields env fp "Failed" false e)]
        result := ⟨30⟩
        error := some e } := by
  obtain ⟨wsD, hD, -, -⟩ := createOrUpdateDeployment_clean env fp st hd
  refine ⟨wsD, ?_⟩
  unfold reconcileChildren
  rw [hD]
  dsimp only
  rw [hsfail]
  dsimp only
  unfold updateStatus
  simp [hu, List.append_assoc]

/-- C6: when a child Deployment or Service write fails during
reconciliation, the reconciler records phase Failed with the error message
in the FrontendPage status, requeues after the fixed 30-second backoff, and
returns the error to its caller for retry rather than aborting the process
(the function returns normally, with the error in its result). -/
theorem child_write_failure_handling (env : ApiEnv) (st : ClusterState)
    (fp : FrontendPage) (e : String) (hfp : st.frontendPage = some fp)
    (hu : env.statusUpdateError = false) :
    (env.deployWriteError = some e →
      (match st.deployment with
       | none => True
       | some d0 => mutateDeployment fp d0 ≠ d0) →
      ((Reconcile env st).error = some e ∧
       (Reconcile env st).result.requeueAfter = 30 ∧
       ∃ fp2, (Reconcile env st).state.frontendPage = some fp2 ∧
         fp2.status.phase = "Failed" ∧ fp2.status.message = e ∧
         fp2.status.ready = false ∧
         Write.statusUpdate fp2 ∈ (Reconcile env st).writes)) ∧
    (env.deployWriteError = none → env.svcWriteError = some e →
      (match st.service with
       | none => True
       | some s0 => mutateService fp s0 ≠ s0) →
      ((Reconcile env st).error = some e ∧
       (Reconcile env st).result.requeueAfter = 30 ∧
       ∃ fp2, (Reconcile env st).state.frontendPage = some fp2 ∧
         fp2.status.phase = "Failed" ∧ fp2.status.message = e ∧
         fp2.status.ready = false ∧
         Write.statusUpdate fp2 ∈ (Reconcile env st).writes)) := by
  constructor
  · intro he hneed
    unfold Reconcile
    rw [hfp]
    by_cases hph : fp.status.phase = ""
    · simp only [hph, if_true, hu, Bool.false_eq_true, if_false]
      set fp1 : FrontendPage := { fp with status := { fp.status with phase := "Pending" } }
        with hfp1
      have hneed1 : (match ({ st with frontendPage := some fp1 } : ClusterState).deployment with
          | none => True
          | some d0 => mutateDeployment fp1 d0 ≠ d0) := hneed
      rw [reconcileChildren_deploy_fail env { st with frontendPage := some fp1 } fp1
        [Write.statusUpdate fp1] e
        (createOrUpdateDeployment_fails env fp1 { st with frontendPage := some fp1 } e he hneed1)
        hu]
      refine ⟨rfl, rfl, _, rfl, rfl, rfl, rfl, ?_⟩
      simp
    · simp only [hph, if_false]
      rw [reconcileChildren_deploy_fail env st fp [] e
        (createOrUpdateDeployment_fails env fp st e he hneed) hu]
      refine ⟨rfl, rfl, _, rfl, rfl, rfl, rfl, ?_⟩
      simp
  · intro hd he hneed
    unfold Reconcile
    rw [hfp]
    by_cases hph : fp.status.phase = ""
    · simp only [hph, if_true, hu, Bool.false_eq_true, if_false]
      set fp1 : FrontendPage := { fp with status := { fp.status with phase := "Pending" } }
        with hfp1
      have hneed1 : (match ({ st with frontendPage := some fp1 } : ClusterState).service with
          | none => True
          | some s0 => mutateService fp1 s0 ≠ s0) := hneed
      obtain ⟨ws1, hrc⟩ := reconcileChildren_svc_fail env { st with frontendPage := some fp1 }
        fp1 [Write.statusUpdate fp1] e hd hu
        (createOrUpdateService_fails env fp1 _ e he hneed1)
      rw [hrc]
      refine ⟨rfl, rfl, _, rfl, rfl, rfl, rfl, ?_⟩
      simp
    · simp only [hph, if_false]
      obtain ⟨ws1, hrc⟩ := reconcileChildren_svc_fail env st fp [] e hd hu
        (createOrUpdateService_fails env fp _ e he hneed)
      rw [hrc]
      refine ⟨rfl, rfl, _, rfl, rfl, rfl, rfl, ?_⟩
      simp

/-- A demo environment whose Deployment write fails. -/
def envFailDeploy : ApiEnv := ⟨"2024-01-01T00:00:00Z", some "boom", none, false⟩

/-- A demo environment whose Service write fails. -/
def envFailSvc : ApiEnv := ⟨"2024-01-01T00:00:00Z", none, some "boom", false⟩

/-- Witness for C6 at the demo input, for a failing Deployment write and a
failing Service write. -/
theorem child_write_failure_handling_witness :
    (((Reconcile envFailDeploy stDemo).error = some "boom" ∧
      (Reconcile envFailDeploy stDemo).result.requeueAfter = 30 ∧
      ∃ fp2, (Reconcile envFailDeploy stDemo).state.frontendPage = some fp2 ∧
        fp2.status.phase = "Failed" ∧ fp2.status.message = "boom" ∧
        fp2.status.ready = false ∧
        Write.statusUpdate fp2 ∈ (Reconcile envFailDeploy stDemo).writes) ∧
     ((Reconcile envFailSvc stDemo).error = some "boom" ∧
      (Reconcile envFailSvc stDemo).result.requeueAfter = 30 ∧
      ∃ fp2, (Reconcile envFailSvc stDemo).state.frontendPage = some fp2 ∧
        fp2.status.phase = "Failed" ∧ fp2.status.message = "boom" ∧
        fp2.status.ready = false ∧
        Write.statusUpdate fp2 ∈ (Reconcile envFailSvc stDemo).writes)) :=
  ⟨(child_write_failure_handling envFailDeploy stDemo fpDemo "boom" rfl rfl).1 rfl trivial,
   (child_write_failure_handling envFailSvc stDemo fpDemo "boom" rfl rfl).2 rfl rfl trivial⟩

/-! ## C8: observedGeneration on status writes -/

/-- Whether a write, when it is a status write, stores an observedGeneration
equal to the written resource's generation. -/
def statusWriteSetsObsGen : Write → Bool
  | .statusUpdate fp => fp.status.observedGeneration == fp.generation
  | _ => true

theorem childWrite_good (w : Write) (h : w.isChildWrite = true) :
    statusWriteSetsObsGen w = true := by
  cases w <;> simp_all [Write.isChildWrite, statusWriteSetsObsGen]

theorem updateStatus_writes_good (env : ApiEnv) (st : ClusterState) (fp : FrontendPage)
    (ph : String) (rd : Bool) (msg : String) :
    ∀ w ∈ (updateStatus env st fp ph rd msg).2, statusWriteSetsObsGen w = true := by
  unfold updateStatus
  by_cases hu : env.statusUpdateError = true
  · simp [hu]
  · simp only [hu, Bool.false_eq_true, if_false]
    intro w hw
    rw [List.mem_singleton] at hw
    subst hw
    simp [statusWriteSetsObsGen, updateStatusFields]

theorem createOrUpdateDeployment_ok_child (env : ApiEnv) (fp : FrontendPage)
    (st st' : ClusterState) (ws : List Write) (d : Deployment)
    (h : createOrUpdateDeployment env fp st = .ok (st', ws, d)) :
    ∀ w ∈ ws, w.isChildWrite = true := by
  intro w hw
  have := createOrUpdateDeployment_ok_owner env fp st st' ws d h w hw
  unfold createOrUpdateDeployment at h
  cases hd : st.deployment with
  | none =>
      rw [hd] at h
      dsimp only at h
      cases he : env.deployWriteError with
      | some e => rw [he] at h; exact absurd h (by simp)
      | none =>
          rw [he] at h
          simp only [Except.ok.injEq, Prod.mk.injEq] at h
          obtain ⟨-, hws, -⟩ := h
          subst hws
          rw [List.mem_singleton] at hw
          subst hw
          rfl
  | some existing =>
      rw [hd] at h
      dsimp only at h
      by_cases hfix : mutateDeployment fp existing = existing
      · rw [if_pos hfix] at h
        simp only [Except.ok.injEq, Prod.mk.injEq] at h
        obtain ⟨-, hws, -⟩ := h
        subst hws
        exact absurd hw (by simp)
      · rw [if_neg hfix] at h
        cases he : env.deployWriteError with
        | some e => rw [he] at h; exact absurd h (by simp)
        | none =>
            rw [he] at h
            simp only [Except.ok.injEq, Prod.mk.injEq] at h
            obtain ⟨-, hws, -⟩ := h
            subst hws
            rw [List.mem_singleton] at hw
            subst hw
            rfl

theorem createOrUpdateService_ok_child (env : ApiEnv) (fp : FrontendPage)
    (st st' : ClusterState) (ws : List Write) (sv : Service)
    (h : createOrUpdateService env fp st = .ok (st', ws, sv)) :
    ∀ w ∈ ws, w.isChildWrite = true := by
  intro w hw
  unfold createOrUpdateService at h
  cases hs : st.service with
  | none =>
      rw [hs] at h
      dsimp only at h
      cases he : env.svcWriteError with
      | some e => rw [he] at h; exact absurd h (by simp)
      | none =>
          rw [he] at h
          simp only [Except.ok.injEq, Prod.mk.injEq] at h
          obtain ⟨-, hws, -⟩ := h
          subst hws
          rw [List.mem_singleton] at hw
          subst hw
          rfl
  | some existing =>
      rw [hs] at h
      dsimp only at h
      by_cases hfix : mutateService fp existing = existing
      · rw [if_pos hfix] at h
        simp only [Except.ok.injEq, Prod.mk.injEq] at h
        obtain ⟨-, hws, -⟩ := h
        subst hws
        exact absurd hw (by simp)
      · rw [if_neg hfix] at h
        cases he : env.svcWriteError with
        | some e => rw [he] at h; exact absurd h (by simp)
        | none =>
            rw [he] at h
            simp only [Except.ok.injEq, Prod.mk.injEq] at h
            obtain ⟨-, hws, -⟩ := h
            subst hws
            rw [List.mem_singleton] at hw
            subst hw
            rfl

theorem reconcileChildren_suffix_good (env : ApiEnv) (st : ClusterState)
    (fp : FrontendPage) (ws0 : List Write) :
    ∃ tl, (reconcileChildren env st fp ws0).writes = ws0 ++ tl ∧
      ∀ w ∈ tl, statusWriteSetsObsGen w = true := by
  unfold reconcileChildren
  cases hD : createOrUpdateDeployment env fp st with
  | error e =>
      refine ⟨(updateStatus env st fp "Failed" false e).2, rfl, ?_⟩
      exact updateStatus_writes_good env st fp "Failed" false e
  | ok t =>
      obtain ⟨st1, ws1, d⟩ := t
      have hws1 := createOrUpdateDeployment_ok_child env fp st st1 ws1 d hD
      dsimp only
      cases hS : createOrUpdateService env fp st1 with
      | error e =>
          dsimp only
          refine ⟨ws1 ++ (updateStatus env st1 fp "Failed" false e).2, ?_, ?_⟩
          · rw [List.append_assoc]
          · intro w hw
            rcases List.mem_append.mp hw with h1 | h1
            · exact childWrite_good w (hws1 w h1)
            · exact updateStatus_writes_good env st1 fp "Failed" false e w h1
      | ok t2 =>
          obtain ⟨st2, ws2, sv⟩ := t2
          have hws2 := createOrUpdateService_ok_child env fp st1 st2 ws2 sv hS
          dsimp only
          by_cases hu : env.statusUpdateError = true
          · refine ⟨ws1 ++ ws2, ?_, ?_⟩
            · simp only [hu, if_true]
              rw [List.append_assoc]
            · intro w hw
              rcases List.mem_append.mp hw with h1 | h1
              · exact childWrite_good w (hws1 w h1)
              · exact childWrite_good w (hws2 w h1)
          · refine ⟨ws1 ++ (ws2 ++ [Write.statusUpdate (setFinalStatus env fp d sv)]), ?_, ?_⟩
            · simp only [hu, Bool.false_eq_true, if_false]
              simp [List.append_assoc]
            · intro w hw
              rcases List.mem_append.mp hw with h1 | h1
              · exact childWrite_good w (hws1 w h1)
              · rcases List.mem_append.mp h1 with h2 | h2
                · exact childWrite_good w (hws2 w h2)
                · rw [List.mem_singleton] at h2
                  subst h2
                  simp [statusWriteSetsObsGen, setFinalStatus]

/-- C8 counterexample: reconciling the fresh demo FrontendPage (generation
5, empty phase) logs a status write whose observedGeneration is not the
written resource's generation — the initial Pending write leaves
observedGeneration untouched. -/
theorem status_write_skips_observed_generation :
    (Reconcile envDemo stDemo).writes.all statusWriteSetsObsGen = false := by
  decide

/-- C8 (amended): every status write performed by the reconciler except the
initial Pending write (issued when the phase is first observed empty) sets
observedGeneration to the resource's current generation; that initial write
leaves observedGeneration unchanged from its previous value. -/
theorem status_writes_set_observed_generation (env : ApiEnv) (st : ClusterState)
    (fp : FrontendPage) (hfp : st.frontendPage = some fp) :
    (∀ w ∈ (Reconcile env st).writes.tail, statusWriteSetsObsGen w = true) ∧
    (fp.status.phase ≠ "" →
      ∀ w ∈ (Reconcile env st).writes, statusWriteSetsObsGen w = true) ∧
    (∀ fpP, (Reconcile env st).writes.head? = some (Write.statusUpdate fpP) →
      fpP.status.observedGeneration ≠ fpP.generation →
      fp.status.phase = "" ∧
      fpP.status.observedGeneration = fp.status.observedGeneration) := by
  by_cases hph : fp.status.phase = ""
  · by_cases hu : env.statusUpdateError = true
    · have hrec : Reconcile env st =
          { state := st, writes := [], result := ⟨0⟩, error := some "status update failed" } := by
        unfold Reconcile
        rw [hfp]
        dsimp only
        rw [if_pos hph, if_pos hu]
      refine ⟨?_, ?_, ?_⟩
      · rw [hrec]
        intro w hw
        exact absurd hw (by simp)
      · intro hne
        exact absurd hph hne
      · intro fpP hhead _
        rw [hrec] at hhead
        exact absurd hhead (by simp)
    · have hrec : Reconcile env st = reconcileChildren env
          ⟨some { fp with status := { fp.status with phase := "Pending" } },
           st.deployment, st.service⟩
          { fp with status := { fp.status with phase := "Pending" } }
          [Write.statusUpdate { fp with status := { fp.status with phase := "Pending" } }] := by
        unfold Reconcile
        rw [hfp]
        dsimp only
        rw [if_pos hph, if_neg hu]
      obtain ⟨tl, htl, hgood⟩ := reconcileChildren_suffix_good env
        ⟨some { fp with status := { fp.status with phase := "Pending" } },
         st.deployment, st.service⟩
        { fp with status := { fp.status with phase := "Pending" } }
        [Write.statusUpdate { fp with status := { fp.status with phase := "Pending" } }]
      have hw : (Reconcile env st).writes =
          Write.statusUpdate { fp with status := { fp.status with phase := "Pending" } } :: tl := by
        rw [hrec, htl]
        rfl
      refine ⟨?_, ?_, ?_⟩
      · rw [hw]
        intro w hmem
        exact hgood w hmem
      · intro hne
        exact absurd hph hne
      · intro fpP hhead _
        rw [hw] at hhead
        simp only [List.head?_cons, Option.some.injEq] at hhead
        injection hhead with h2
        rw [← h2]
        exact ⟨hph, rfl⟩
  · have hrec : Reconcile env st = reconcileChildren env st fp [] := by
      unfold Reconcile
      rw [hfp]
      dsimp only
      rw [if_neg hph]
    obtain ⟨tl, htl, hgood⟩ := reconcileChildren_suffix_good env st fp []
    have hw : (Reconcile env st).writes = tl := by
      rw [hrec, htl]
      rfl
    have hAll : ∀ w ∈ (Reconcile env st).writes, statusWriteSetsObsGen w = true := by
      rw [hw]
      exact hgood
    refine ⟨?_, fun _ => hAll, ?_⟩
    · intro w hmem
      exact hAll w (List.mem_of_mem_tail hmem)
    · intro fpP hhead hne
      have hmem : Write.statusUpdate fpP ∈ (Reconcile env st).writes := by
        cases hl : (Reconcile env st).writes with
        | nil =>
            rw [hl] at hhead
            exact absurd hhead (by simp)
        | cons a l =>
            rw [hl] at hhead
            simp only [List.head?_cons, Option.some.injEq] at hhead
            rw [← hhead]
            exact List.mem_cons_self a l
      have hgood2 := hAll _ hmem
      simp only [statusWriteSetsObsGen, beq_iff_eq] at hgood2
      exact absurd hgood2 hne

/-- Witness for the amended C8: at the demo cluster whose FrontendPage is
already in phase Pending, every logged status write stores
observedGeneration = generation. -/
theorem status_writes_set_observed_generation_witness :
    (Reconcile envDemo stReady).writes.all statusWriteSetsObsGen = true := by
  rw [List.all_eq_true]
  intro w hw
  exact (status_writes_set_observed_generation envDemo stReady fpPendingDemo rfl).2.1
    (by decide) w hw

/-! ## C3: work-queue coalescing -/

theorem WorkQueue.add_of_dirty (q : WorkQueue) (i : String)
    (h : q.dirty.contains i = true) : q.add i = q := by
  unfold WorkQueue.add
  rw [if_pos h]

theorem WorkQueue.add_of_processing (q : WorkQueue) (i : String)
    (hp : q.processing.contains i = true) (hd : q.dirty.contains i = false) :
    q.add i = { q with dirty := q.dirty ++ [i] } := by
  unfold WorkQueue.add
  rw [if_neg (by rw [hd]; exact Bool.false_ne_true), if_pos hp]

theorem WorkQueue.dirty_after_add (q : WorkQueue) (i : String) :
    (q.add i).dirty.contains i = true := by
  unfold WorkQueue.add
  by_cases h : q.dirty.contains i = true
  · rw [if_pos h]
    exact h
  · rw [if_neg h]
    by_cases hp : q.processing.contains i = true
    · rw [if_pos hp]
      dsimp only
      simp
    · rw [if_neg hp]
      dsimp only
      simp

theorem WorkQueue.addN_collapse (q : WorkQueue) (i : String) :
    ∀ n, q.addN i (n + 1) = q.add i := by
  intro n
  induction n with
  | zero => rfl
  | succ m ih =>
      show (q.addN i (m + 1)).add i = q.add i
      rw [ih]
      exact WorkQueue.add_of_dirty _ i (WorkQueue.dirty_after_add q i)

/-- C3 (amended): the queue coalesces per exact work item (the
operation-hinted string the handlers enqueue): adding the same item N+1
times while it is being processed and not yet re-queued behaves exactly
like adding it once, and after the in-flight processing completes the item
is pending exactly once. -/
theorem workqueue_coalesces_per_item (q : WorkQueue) (i : String) (n : Nat)
    (hp : q.processing.contains i = true) (hd : q.dirty.contains i = false)
    (hq : q.queue.count i = 0) :
    q.addN i (n + 1) = q.add i ∧
    ((q.addN i (n + 1)).done i).queue.count i = 1 := by
  refine ⟨WorkQueue.addN_collapse q i n, ?_⟩
  rw [WorkQueue.addN_collapse q i n, WorkQueue.add_of_processing q i hp hd]
  unfold WorkQueue.done
  rw [if_pos (by simp : (({ q with dirty := q.dirty ++ [i] } : WorkQueue).dirty.contains i) = true)]
  dsimp only
  simp [List.count_append, hq]

/-- Witness for the amended C3: six adds of one in-flight item followed by
Done leave it pending exactly once. -/
theorem workqueue_coalesces_per_item_witness :
    (WorkQueue.addN ⟨[], [], ["add:default/web"]⟩ "add:default/web" 6
      = WorkQueue.add ⟨[], [], ["add:default/web"]⟩ "add:default/web") ∧
    (((WorkQueue.addN ⟨[], [], ["add:default/web"]⟩ "add:default/web" 6).done
      "add:default/web").queue.count "add:default/web" = 1) :=
  workqueue_coalesces_per_item ⟨[], [], ["add:default/web"]⟩ "add:default/web" 5
    (by decide) (by decide) (by decide)

/-- An event processor with both custom-logic switches enabled and an empty
queue and cache. -/
def epDemo : EventProcessor := ⟨WorkQueue.empty, [], ⟨true, true⟩⟩

/-- A watched deployment at generation 1. -/
def dOldDemo : WatchedDeployment := ⟨"default", "web", 1, some 1, some "nginx:1.20", 1, 1⟩

/-- The same deployment after a significant update (generation and replica
count changed). -/
def dNewDemo : WatchedDeployment := ⟨"default", "web", 2, some 2, some "nginx:1.20", 1, 1⟩

/-- C3 counterexample: an add event followed by a significant update event
for the same deployment leaves the work queue holding two pending items for
the identity default/web (add:default/web and update:default/web), so the
queue does not hold at most one pending item per resource identity. -/
theorem queue_holds_two_items_per_identity :
    ¬ (pendingForKey (handleUpdateEvent (handleAddEvent epDemo dOldDemo)
        dOldDemo dNewDemo).workqueue "default/web" ≤ 1) := by
  decide

end K8sCli
